import Mathlib

/-!
Verification of the remotebuild pipeline (src/main.rs): a shallow embedding of
its configuration handling, SSH control-path derivation, file selection,
sync/build/pull pipeline, and the command strings it composes, together with
theorems settling the specified properties.
-/

namespace RemoteBuild

/-- Output verbosity tiers (`enum OutputLevel` in the source). -/
inductive OutputLevel
  | Minimal
  | Normal
  | Verbose
  deriving DecidableEq, Repr

/-- Remote build configuration (`struct Config` in the source). -/
structure Config where
  host : String
  remote_path : String
  build_command : String
  artifacts : List String
  exclude_patterns : List String
  git_aware : Bool
  output : String

/-- Source function `default_remote_path()`. -/
def default_remote_path : String := "~/remotebuild-cache"

/-- Rust's `str::to_lowercase`, modelled as per-character lowercasing (the
recognized tier names are all ASCII, where the two coincide). -/
def rust_to_lowercase (s : String) : String :=
  String.mk (s.data.map Char.toLower)

/-- Source method `Config::output_level`: match on the lowercased `output` field. -/
def Config.output_level (c : Config) : OutputLevel :=
  match rust_to_lowercase c.output with
  | "verbose" => .Verbose
  | "v" => .Verbose
  | "normal" => .Normal
  | "n" => .Normal
  | _ => .Minimal

/-- The CLI override in `main`: `if let Some(output) = args.output { config.output = output; }`. -/
def apply_cli_output (cli : Option String) (c : Config) : Config :=
  match cli with
  | some o => { c with output := o }
  | none => c

/-- The sanitisation step of `ssh_control_path`:
`host.replace(|c: char| !c.is_alphanumeric() && c != '-' && c != '.', "_")`.
`isAlnum` abstracts Rust's Unicode `char::is_alphanumeric`. -/
def sanitize_host (isAlnum : Char → Bool) (host : String) : String :=
  String.mk (host.data.map fun c =>
    if !isAlnum c && !(c == '-') && !(c == '.') then '_' else c)

/-- Source function `ssh_control_path`: the per-user cache directory (`dirs::cache_dir()`, with a
temp-dir fallback, abstracted as `cacheDir` and fixed for the run) joined with
`remotebuild` and the file name `control_<sanitized host>`. -/
def ssh_control_path (isAlnum : Char → Bool) (cacheDir : String) (host : String) : String :=
  cacheDir ++ "/remotebuild/" ++ ("control_" ++ sanitize_host isAlnum host)

/-- Argument list of the liveness probe in `ensure_ssh_connection`. -/
def liveness_probe_args (isAlnum : Char → Bool) (cacheDir : String) (cfg : Config) :
    List String :=
  ["-o", "ControlMaster=no",
   "-o", "ControlPath=" ++ ssh_control_path isAlnum cacheDir cfg.host,
   "-o", "ConnectTimeout=2", cfg.host, "true"]

/-- Argument list of the background control-master spawn in `ensure_ssh_connection`. -/
def master_spawn_args (isAlnum : Char → Bool) (cacheDir : String) (cfg : Config) :
    List String :=
  ["-N", "-M", "-o", "ControlMaster=auto", "-o", "ControlPersist=10m",
   "-o", "ControlPath=" ++ ssh_control_path isAlnum cacheDir cfg.host, cfg.host]

/-- Source helper `add_ssh_control_args`: the fragment merged into every ssh command. -/
def add_ssh_control_args (isAlnum : Char → Bool) (cacheDir : String) (cfg : Config) :
    List String :=
  ["-o", "ControlPath=" ++ ssh_control_path isAlnum cacheDir cfg.host]

/-- Source helper `ssh_command`: ssh with the control args followed by the host. -/
def ssh_command_args (isAlnum : Char → Bool) (cacheDir : String) (cfg : Config) :
    List String :=
  add_ssh_control_args isAlnum cacheDir cfg ++ [cfg.host]

/-- Source helper `ssh_control_path_arg`: the `-e` value handed to rsync. -/
def ssh_control_path_arg (isAlnum : Char → Bool) (cacheDir : String) (cfg : Config) : String :=
  "ssh -o ControlPath=" ++ ssh_control_path isAlnum cacheDir cfg.host

/-- Whitelisted characters of the external `shell_escape` crate (unix `escape`):
ASCII alphanumerics and `-` `_` `=` `/` `,` `.` `+`. -/
def shell_escape_whitelisted (c : Char) : Bool :=
  c.isAlpha || c.isDigit || c == '-' || c == '_' || c == '=' || c == '/' ||
    c == ',' || c == '.' || c == '+'

/-- Per-character quoting of the external `shell_escape` crate: inside single
quotes, a quote or `!` is closed off, backslash-escaped and reopened. -/
def shell_escape_char (c : Char) : List Char :=
  if c == '\'' || c == '!' then ['\'', '\\', c, '\''] else [c]

/-- The external `shell_escape::escape` (unix): a non-empty fully whitelisted
string passes through; anything else is wrapped in single quotes. -/
def shell_escape (s : String) : String :=
  if !s.isEmpty && s.data.all shell_escape_whitelisted then s
  else String.mk ('\'' :: ((s.data.map shell_escape_char).flatten ++ ['\'']))

/-- Line 280: `format!("mkdir -p {}", escape(Cow::Borrowed(remote_full_path)))`. -/
def mkdir_cmd (remote_path : String) : String :=
  "mkdir -p " ++ shell_escape remote_path

/-- Line 401: `format!("cd {} && {}", config.remote_path, config.build_command)` —
no escaping of the path. -/
def build_cmd (cfg : Config) : String :=
  "cd " ++ cfg.remote_path ++ " && " ++ cfg.build_command

/-- Argument list of a `run_ssh_command` invocation: the shared ssh args plus the command. -/
def run_ssh_command_args (isAlnum : Char → Bool) (cacheDir : String) (cfg : Config)
    (cmd : String) : List String :=
  ssh_command_args isAlnum cacheDir cfg ++ [cmd]

/-- The full argument list of the remote directory-creation invocation. -/
def mkdir_invocation_args (isAlnum : Char → Bool) (cacheDir : String) (cfg : Config) :
    List String :=
  run_ssh_command_args isAlnum cacheDir cfg (mkdir_cmd cfg.remote_path)

/-- The full argument list of the remote build invocation. -/
def build_invocation_args (isAlnum : Char → Bool) (cacheDir : String) (cfg : Config) :
    List String :=
  run_ssh_command_args isAlnum cacheDir cfg (build_cmd cfg)

/-- The rsync verbosity flag chosen in `sync_to_remote`/`sync_artifacts`. -/
def rsync_output_flag : OutputLevel → String
  | .Verbose => "-v"
  | _ => "--quiet"

/-- The fixed built-in exclusion patterns of `sync_to_remote`. -/
def builtin_excludes : List String :=
  ["--exclude=.git", "--exclude=.gitignore", "--exclude=*.nds", "--exclude=*.elf",
   "--exclude=build/", "--exclude=.ninja_*", "--exclude=compile_commands.json"]

/-- The rsync push argument list assembled by `sync_to_remote` (with
`manifestFile` the temp file passed via `--files-from`, when present). -/
def push_rsync_args (isAlnum : Char → Bool) (cacheDir : String) (projectDir : String)
    (cfg : Config) (manifestFile : Option String) : List String :=
  ["-avz", rsync_output_flag cfg.output_level, "--delete",
   "-e", ssh_control_path_arg isAlnum cacheDir cfg]
  ++ builtin_excludes
  ++ cfg.exclude_patterns.map (fun p => "--exclude=" ++ p)
  ++ (match manifestFile with
      | some f => ["--files-from=" ++ f]
      | none => [])
  ++ [projectDir ++ "/", cfg.host ++ ":" ++ cfg.remote_path ++ "/"]

/-- The rsync pull argument list assembled by `sync_artifacts` for one artifact. -/
def pull_rsync_args (isAlnum : Char → Bool) (cacheDir : String) (cfg : Config)
    (artifact : String) : List String :=
  ["-avz", rsync_output_flag cfg.output_level,
   "-e", ssh_control_path_arg isAlnum cacheDir cfg,
   cfg.host ++ ":" ++ cfg.remote_path ++ "/" ++ artifact, "."]

/-- Outcome of launching one external process: the launch itself can fail
(`Command::output()`/`status()` returning `Err`), or the process runs and
exits with a code. -/
inductive ProcResult
  | launchFail
  | exited (code : Nat)
  deriving DecidableEq, Repr

/-- Rust `ExitStatus::success()`: ran and exited 0. -/
def ProcResult.success : ProcResult → Bool
  | .exited 0 => true
  | _ => false

/-- The externally determined outcomes of one run: filesystem state and the
result of each external process the pipeline may launch. `sessionReady` records
whether the background master actually comes up; the code never consults it.
`pullResult i` is the outcome of the rsync pull for the `i`-th artifact. -/
structure Env where
  controlSocketExists : Bool
  probeResult : ProcResult
  spawnOk : Bool
  sessionReady : Bool
  mkdirResult : ProcResult
  gitLsLaunchOk : Bool
  gitLsStatusOk : Bool
  gitTracked : List String
  gitOthersLaunchOk : Bool
  gitOthersStatusOk : Bool
  gitUntracked : List String
  tempWriteOk : Bool
  pushResult : ProcResult
  buildResult : ProcResult
  pullResult : Nat → ProcResult

/-- The error values (`anyhow!`/`context`) the pipeline can return. -/
inductive RunError
  | sshMasterSpawnFail
  | sshCommandLaunchFail
  | sshCommandFail
  | gitLaunchFail
  | tempWriteFail
  | rsyncLaunchFail
  | rsyncFail (code : Nat)
  | buildLaunchFail
  | buildFail (code : Nat)
  | artifactRsyncLaunchFail
  deriving DecidableEq, Repr

/-- Observable side effects traced through the pipeline: manifest temp-file
creation and removal, and the pull attempt (and pull-failure warning) per
artifact index. -/
inductive Event
  | tempFileWritten
  | tempFileRemoved
  | pullAttempt (idx : Nat) (artifact : String)
  | pullWarning (idx : Nat) (artifact : String)
  deriving DecidableEq, Repr

/-- Source function `ensure_ssh_connection`: if the control socket exists and the short probe
succeeds, reuse it; otherwise spawn the background master (failure of the
spawn itself is the only error), sleep a fixed 100 ms grace period and return
`Ok` — `sessionReady` is never consulted. -/
def ensure_ssh_connection (e : Env) : Except RunError Unit :=
  if e.controlSocketExists && e.probeResult.success then
    .ok ()
  else if e.spawnOk then
    .ok ()
  else
    .error .sshMasterSpawnFail

/-- Source function `run_ssh_command`: launch failure is an error; a run with non-zero exit is
an error carrying the remote stderr; exit 0 is `Ok`. -/
def run_ssh_command (r : ProcResult) : Except RunError Unit :=
  match r with
  | .launchFail => .error .sshCommandLaunchFail
  | .exited c => if c = 0 then .ok () else .error .sshCommandFail

/-- Source function `get_git_files`: `git ls-files` (launch failure propagates; non-zero exit
returns the empty list), then `git ls-files --others --exclude-standard`
(launch failure propagates via `?`; on success its non-empty lines are
appended; on non-zero exit only the tracked lines are returned). -/
def get_git_files (e : Env) : Except RunError (List String) :=
  if !e.gitLsLaunchOk then
    .error .gitLaunchFail
  else if !e.gitLsStatusOk then
    .ok []
  else if !e.gitOthersLaunchOk then
    .error .gitLaunchFail
  else if e.gitOthersStatusOk then
    .ok (e.gitTracked ++ e.gitUntracked.filter (fun f => !f.isEmpty))
  else
    .ok e.gitTracked

/-- The manifest decision of `sync_to_remote` (lines 313–334): in git-aware,
non-forced mode, a successful `get_git_files` with a non-empty result selects
that list as the manifest; an error or an empty result selects no manifest. -/
def manifest_files (e : Env) (cfg : Config) (force_full_sync : Bool) :
    Option (List String) :=
  if cfg.git_aware && !force_full_sync then
    match get_git_files e with
    | .ok files => if !files.isEmpty then some files else none
    | .error _ => none
  else
    none

/-- The rsync push step of `sync_to_remote`: `status()` launch failure returns
early (before any cleanup); otherwise the temp file, if one was written, is
removed and then the exit status is checked. -/
def push_transfer (e : Env) (hasManifest : Bool) : Except RunError Unit × List Event :=
  let written : List Event := if hasManifest then [.tempFileWritten] else []
  match e.pushResult with
  | .launchFail => (.error .rsyncLaunchFail, written)
  | .exited c =>
    let cleaned := written ++ (if hasManifest then [.tempFileRemoved] else [])
    if c = 0 then (.ok (), cleaned) else (.error (.rsyncFail c), cleaned)

/-- Source function `sync_to_remote`: ensure the shared connection, create the remote
directory, decide the manifest (writing it to a temp file when non-empty;
a failing write propagates), then run the rsync push. -/
def sync_to_remote (e : Env) (cfg : Config) (force_full_sync : Bool) :
    Except RunError Unit × List Event :=
  match ensure_ssh_connection e with
  | .error er => (.error er, [])
  | .ok _ =>
    match run_ssh_command e.mkdirResult with
    | .error er => (.error er, [])
    | .ok _ =>
      match manifest_files e cfg force_full_sync with
      | some _files =>
        if e.tempWriteOk then push_transfer e true
        else (.error .tempWriteFail, [])
      | none => push_transfer e false

/-- Source function `run_remote_build_command`: `status()?` launch failure propagates; a
non-zero exit is a fatal error carrying the exit code. -/
def run_remote_build_command (e : Env) : Except RunError Unit :=
  match e.buildResult with
  | .launchFail => .error .buildLaunchFail
  | .exited c => if c = 0 then .ok () else .error (.buildFail c)

/-- The loop body of `sync_artifacts` from artifact index `i` on: a pull whose
launch fails returns the error immediately via `?`; a pull that runs but exits
non-zero emits a warning and the loop continues. -/
def sync_artifacts_from (pull : Nat → ProcResult) :
    Nat → List String → Except RunError Unit × List Event
  | _, [] => (.ok (), [])
  | i, a :: rest =>
    match pull i with
    | .launchFail => (.error .artifactRsyncLaunchFail, [.pullAttempt i a])
    | .exited c =>
      if c = 0 then
        ((sync_artifacts_from pull (i + 1) rest).1,
         .pullAttempt i a :: (sync_artifacts_from pull (i + 1) rest).2)
      else
        ((sync_artifacts_from pull (i + 1) rest).1,
         .pullAttempt i a :: .pullWarning i a :: (sync_artifacts_from pull (i + 1) rest).2)

/-- Source function `sync_artifacts`: iterate the pull over all configured artifacts. -/
def sync_artifacts (e : Env) (cfg : Config) : Except RunError Unit × List Event :=
  sync_artifacts_from e.pullResult 0 cfg.artifacts

/-- Source function `run_remote_build`: sync to remote, then the remote build, then the
artifact pulls, stopping at the first error (`?` at each step). -/
def run_remote_build (e : Env) (cfg : Config) (force_full_sync : Bool) :
    Except RunError Unit × List Event :=
  match sync_to_remote e cfg force_full_sync with
  | (.error er, ev) => (.error er, ev)
  | (.ok _, ev) =>
    match run_remote_build_command e with
    | .error er => (.error er, ev)
    | .ok _ => ((sync_artifacts e cfg).1, ev ++ (sync_artifacts e cfg).2)

/-- Whether a trace records no pull attempt and no pull warning at all. -/
def no_pull_events (ev : List Event) : Bool :=
  ev.all fun x =>
    match x with
    | .pullAttempt _ _ => false
    | .pullWarning _ _ => false
    | _ => true

/-- Whether the trace records a pull attempt for every artifact, with the
indices starting at `i`. -/
def attempts_present : Nat → List String → List Event → Bool
  | _, [], _ => true
  | i, a :: rest, ev =>
    decide (Event.pullAttempt i a ∈ ev) && attempts_present (i + 1) rest ev

/-- Whether the trace records a pull warning for every artifact whose pull ran
and exited non-zero, with the indices starting at `i`. -/
def warnings_present (pull : Nat → ProcResult) : Nat → List String → List Event → Bool
  | _, [], _ => true
  | i, a :: rest, ev =>
    (match pull i with
     | .exited (Nat.succ _) => decide (Event.pullWarning i a ∈ ev)
     | _ => true) && warnings_present pull (i + 1) rest ev

/-- Whether every pull attempt recorded in the trace has index at most `bound`. -/
def attempts_bounded (bound : Nat) (ev : List Event) : Bool :=
  ev.all fun x =>
    match x with
    | .pullAttempt i _ => decide (i ≤ bound)
    | _ => true

/-- Minimal POSIX word evaluation for the two rules relevant here: a
single-quoted word is taken literally (tilde expansion suppressed), and an
unquoted word beginning with `~/` has the tilde replaced by the home
directory. Models the remote shell consuming the composed command strings. -/
def shell_word_eval (home : String) (w : String) : String :=
  match w.data with
  | q1 :: rest =>
    if q1 == '\'' && rest.getLast? == some '\'' then
      String.mk rest.dropLast
    else if q1 == '~' && rest.head? == some '/' then
      home ++ String.mk rest
    else w
  | [] => w

/-- Baseline environment in which every external interaction succeeds and git
reports no files. -/
def env0 : Env where
  controlSocketExists := true
  probeResult := .exited 0
  spawnOk := true
  sessionReady := true
  mkdirResult := .exited 0
  gitLsLaunchOk := true
  gitLsStatusOk := true
  gitTracked := []
  gitOthersLaunchOk := true
  gitOthersStatusOk := true
  gitUntracked := []
  tempWriteOk := true
  pushResult := .exited 0
  buildResult := .exited 0
  pullResult := fun _ => .exited 0

/-- Concrete configuration used by the witnesses. -/
def cfg0 : Config where
  host := "ci@build1"
  remote_path := "~/cache"
  build_command := "make -j4"
  artifacts := ["out/app.bin"]
  exclude_patterns := []
  git_aware := true
  output := ""

/-- Environment whose new background session is never ready. -/
def env_warmup : Env :=
  { env0 with controlSocketExists := false, probeResult := .launchFail,
              sessionReady := false }

/-- Environment where the remote build exits 2. -/
def env_build_fail : Env :=
  { env0 with buildResult := .exited 2 }

/-- Environment with zero tracked paths but one untracked-but-not-ignored path. -/
def env_untracked_only : Env :=
  { env0 with gitUntracked := ["a.txt"] }

/-- Environment with a tracked file where the rsync push fails to launch. -/
def env_push_launch_fail : Env :=
  { env0 with gitTracked := ["f.c"], pushResult := .launchFail }

/-- Environment with a tracked file where the rsync push runs and exits 23. -/
def env_push_exit_fail : Env :=
  { env0 with gitTracked := ["f.c"], pushResult := .exited 23 }

/-- Environment where the first artifact pull succeeds and the second runs but
exits 23. -/
def env_pull_mixed : Env :=
  { env0 with pullResult := fun i => if i == 0 then .exited 0 else .exited 23 }

/-- Environment where the pull for artifact index 1 fails to launch. -/
def env_pull_launch_fail : Env :=
  { env0 with pullResult := fun i => if i == 1 then .launchFail else .exited 0 }

/-- Configuration with three artifacts. -/
def cfg_three : Config :=
  { cfg0 with artifacts := ["a.bin", "b.bin", "c.bin"] }

/-- Configuration with two artifacts. -/
def cfg_two : Config :=
  { cfg0 with artifacts := ["a.bin", "b.bin"] }

/- ------------------------------------------------------------------ -/
/- Helper lemmas                                                      -/
/- ------------------------------------------------------------------ -/

theorem push_transfer_events (e : Env) (b : Bool) :
    ∀ x ∈ (push_transfer e b).2, x = Event.tempFileWritten ∨ x = Event.tempFileRemoved := by
  intro x hx
  unfold push_transfer at hx
  rcases hp : e.pushResult with _ | c <;> rw [hp] at hx
  · cases b <;> simp_all
  · cases b <;> by_cases hc : c = 0 <;> simp_all

theorem sync_to_remote_events (e : Env) (cfg : Config) (force : Bool) :
    ∀ x ∈ (sync_to_remote e cfg force).2,
      x = Event.tempFileWritten ∨ x = Event.tempFileRemoved := by
  intro x hx
  unfold sync_to_remote at hx
  rcases h1 : ensure_ssh_connection e with er | u <;> rw [h1] at hx
  · simp at hx
  · rcases h2 : run_ssh_command e.mkdirResult with er | u <;> rw [h2] at hx
    · simp at hx
    · rcases h3 : manifest_files e cfg force with _ | fs <;> rw [h3] at hx
      · exact push_transfer_events e false x hx
      · by_cases ht : e.tempWriteOk <;> simp only [ht, if_true, if_false] at hx
        · exact push_transfer_events e true x hx
        · simp at hx

theorem no_pull_events_of_temp (ev : List Event)
    (h : ∀ x ∈ ev, x = Event.tempFileWritten ∨ x = Event.tempFileRemoved) :
    no_pull_events ev = true := by
  simp only [no_pull_events, List.all_eq_true]
  intro x hx
  rcases h x hx with h' | h' <;> simp [h']

theorem attempts_present_mono (as : List String) (i : Nat) (ev : List Event) (x : Event)
    (h : attempts_present i as ev = true) : attempts_present i as (x :: ev) = true := by
  induction as generalizing i with
  | nil => rfl
  | cons a rest ih =>
    simp only [attempts_present, Bool.and_eq_true, decide_eq_true_eq] at h ⊢
    exact ⟨List.mem_cons_of_mem x h.1, ih (i + 1) h.2⟩

theorem warnings_present_mono (pull : Nat → ProcResult) (as : List String) (i : Nat)
    (ev : List Event) (x : Event)
    (h : warnings_present pull i as ev = true) :
    warnings_present pull i as (x :: ev) = true := by
  induction as generalizing i with
  | nil => rfl
  | cons a rest ih =>
    simp only [warnings_present, Bool.and_eq_true] at h ⊢
    obtain ⟨ha, hb⟩ := h
    refine ⟨?_, ih (i + 1) hb⟩
    rcases hp : pull i with _ | c
    · exact rfl
    · rw [hp] at ha
      rcases c with _ | c'
      · exact rfl
      · have ha' : Event.pullWarning i a ∈ ev := by simpa using ha
        simpa using List.mem_cons_of_mem x ha'

theorem sync_artifacts_from_all_run (pull : Nat → ProcResult) (as : List String) (i : Nat)
    (h : ∀ j, j < as.length → pull (i + j) ≠ ProcResult.launchFail) :
    (sync_artifacts_from pull i as).1 = .ok () ∧
    attempts_present i as (sync_artifacts_from pull i as).2 = true ∧
    warnings_present pull i as (sync_artifacts_from pull i as).2 = true := by
  induction as generalizing i with
  | nil => exact ⟨rfl, rfl, rfl⟩
  | cons a rest ih =>
    have h0 : pull i ≠ ProcResult.launchFail := by
      have := h 0 (by simp)
      simpa using this
    have hrest : ∀ j, j < rest.length → pull (i + 1 + j) ≠ ProcResult.launchFail := by
      intro j hj
      have := h (j + 1) (by simpa using Nat.succ_lt_succ hj)
      have he : i + (j + 1) = i + 1 + j := by omega
      rwa [he] at this
    obtain ⟨h1, h2, h3⟩ := ih (i + 1) hrest
    rcases hp : pull i with _ | c
    · exact absurd hp h0
    · by_cases hc : c = 0
      · subst hc
        refine ⟨?_, ?_, ?_⟩
        · unfold sync_artifacts_from
          rw [hp]
          exact h1
        · unfold sync_artifacts_from
          rw [hp]
          simp only [attempts_present, Bool.and_eq_true, decide_eq_true_eq]
          exact ⟨List.mem_cons_self _ _, attempts_present_mono rest (i + 1) _ _ h2⟩
        · unfold sync_artifacts_from
          rw [hp]
          simp only [warnings_present, hp, Bool.true_and]
          exact warnings_present_mono pull rest (i + 1) _ _ h3
      · refine ⟨?_, ?_, ?_⟩
        · unfold sync_artifacts_from
          rw [hp]
          simp only [if_neg hc]
          exact h1
        · unfold sync_artifacts_from
          rw [hp]
          simp only [if_neg hc]
          simp only [attempts_present, Bool.and_eq_true, decide_eq_true_eq]
          refine ⟨List.mem_cons_self _ _, ?_⟩
          exact attempts_present_mono rest (i + 1) _ _
            (attempts_present_mono rest (i + 1) _ _ h2)
        · unfold sync_artifacts_from
          rw [hp]
          simp only [if_neg hc]
          simp only [warnings_present, hp, Bool.and_eq_true]
          constructor
          · rcases c with _ | c'
            · exact absurd rfl hc
            · simp only [decide_eq_true_eq]
              exact List.mem_cons_of_mem _ (List.mem_cons_self _ _)
          · exact warnings_present_mono pull rest (i + 1) _ _
              (warnings_present_mono pull rest (i + 1) _ _ h3)

theorem sync_artifacts_from_launch_fail (pull : Nat → ProcResult) (as : List String)
    (i j : Nat) (hj : j < as.length) (hfail : pull (i + j) = ProcResult.launchFail)
    (hpre : ∀ k, k < j → pull (i + k) ≠ ProcResult.launchFail) :
    (sync_artifacts_from pull i as).1 = .error .artifactRsyncLaunchFail ∧
    attempts_bounded (i + j) (sync_artifacts_from pull i as).2 = true := by
  induction as generalizing i j with
  | nil => simp at hj
  | cons a rest ih =>
    cases j with
    | zero =>
      have hfail' : pull i = ProcResult.launchFail := by simpa using hfail
      unfold sync_artifacts_from
      rw [hfail']
      exact ⟨rfl, by simp [attempts_bounded]⟩
    | succ j' =>
      have h0 : pull i ≠ ProcResult.launchFail := by
        simpa using hpre 0 (Nat.succ_pos _)
      rcases hp : pull i with _ | c
      · exact absurd hp h0
      · have hj' : j' < rest.length := Nat.lt_of_succ_lt_succ hj
        have hfail' : pull (i + 1 + j') = ProcResult.launchFail := by
          have he : i + 1 + j' = i + (j' + 1) := by omega
          rwa [he]
        have hpre' : ∀ k, k < j' → pull (i + 1 + k) ≠ ProcResult.launchFail := by
          intro k hk
          have := hpre (k + 1) (Nat.succ_lt_succ hk)
          have he : i + 1 + k = i + (k + 1) := by omega
          rwa [he]
        obtain ⟨h1, h2⟩ := ih (i + 1) j' hj' hfail' hpre'
        have he : i + 1 + j' = i + (j' + 1) := by omega
        rw [he] at h2
        simp only [attempts_bounded] at h2
        by_cases hc : c = 0
        · subst hc
          refine ⟨?_, ?_⟩
          · unfold sync_artifacts_from
            rw [hp]
            exact h1
          · unfold sync_artifacts_from
            rw [hp]
            show attempts_bounded (i + (j' + 1))
              (Event.pullAttempt i a :: (sync_artifacts_from pull (i + 1) rest).2) = true
            simp only [attempts_bounded, List.all_cons, Bool.and_eq_true, decide_eq_true_eq]
            exact ⟨by omega, h2⟩
        · refine ⟨?_, ?_⟩
          · unfold sync_artifacts_from
            rw [hp]
            simp only [if_neg hc]
            exact h1
          · unfold sync_artifacts_from
            rw [hp]
            simp only [if_neg hc]
            simp only [attempts_bounded, List.all_cons, Bool.and_eq_true, decide_eq_true_eq]
            exact ⟨by omega, trivial, h2⟩

/- ------------------------------------------------------------------ -/
/- Claims                                                             -/
/- ------------------------------------------------------------------ -/

/-- C1: every transport invocation of one run (liveness probe, master spawn,
remote mkdir, remote build, rsync push, each rsync pull) references the one
control-artifact path `ssh_control_path isAlnum cacheDir cfg.host`, computed
deterministically from the host. -/
theorem c1_single_control_path (isAlnum : Char → Bool) (cacheDir : String)
    (cfg : Config) (projectDir : String) (manifestFile : Option String)
    (artifact : String) :
    ("ControlPath=" ++ ssh_control_path isAlnum cacheDir cfg.host)
        ∈ liveness_probe_args isAlnum cacheDir cfg ∧
    ("ControlPath=" ++ ssh_control_path isAlnum cacheDir cfg.host)
        ∈ master_spawn_args isAlnum cacheDir cfg ∧
    ("ControlPath=" ++ ssh_control_path isAlnum cacheDir cfg.host)
        ∈ mkdir_invocation_args isAlnum cacheDir cfg ∧
    ("ControlPath=" ++ ssh_control_path isAlnum cacheDir cfg.host)
        ∈ build_invocation_args isAlnum cacheDir cfg ∧
    ("ssh -o ControlPath=" ++ ssh_control_path isAlnum cacheDir cfg.host)
        ∈ push_rsync_args isAlnum cacheDir projectDir cfg manifestFile ∧
    ("ssh -o ControlPath=" ++ ssh_control_path isAlnum cacheDir cfg.host)
        ∈ pull_rsync_args isAlnum cacheDir cfg artifact := by
  refine ⟨?_, ?_, ?_, ?_, ?_, ?_⟩ <;>
    simp [liveness_probe_args, master_spawn_args, mkdir_invocation_args,
      build_invocation_args, run_ssh_command_args, ssh_command_args,
      add_ssh_control_args, push_rsync_args, pull_rsync_args, ssh_control_path_arg]

/-- C2 counterexample: with zero tracked paths but one untracked-but-not-ignored
path, the File Selector does NOT degrade to no manifest — it selects the
untracked path as the manifest. -/
theorem c2_counterexample :
    manifest_files env_untracked_only cfg0 false = some ["a.txt"] ∧
    manifest_files env_untracked_only cfg0 false ≠ none := by
  exact ⟨rfl, by decide⟩

/-- C2 (amended): in incremental mode with a successful tracked-paths query
returning zero tracked paths, the manifest is absent exactly when the
untracked-but-not-ignored query also contributes no paths; otherwise the
manifest consists of the untracked paths. -/
theorem c2_zero_tracked_manifest (e : Env) (cfg : Config)
    (hg : cfg.git_aware = true)
    (hl : e.gitLsLaunchOk = true) (hls : e.gitLsStatusOk = true)
    (hol : e.gitOthersLaunchOk = true) (hos : e.gitOthersStatusOk = true)
    (ht : e.gitTracked = []) :
    manifest_files e cfg false =
      if (e.gitUntracked.filter (fun f => !f.isEmpty)).isEmpty then none
      else some (e.gitUntracked.filter (fun f => !f.isEmpty)) := by
  unfold manifest_files get_git_files
  simp only [hg, hl, hls, hol, hos, ht, Bool.not_true, Bool.false_and, Bool.and_true,
    Bool.not_false, if_true, if_false, Bool.true_and, List.nil_append]
  by_cases h : (e.gitUntracked.filter (fun f => !f.isEmpty)).isEmpty <;> simp [h]

/-- Witness for the amended C2 at the concrete counterexample environment. -/
theorem c2_zero_tracked_manifest_witness :
    manifest_files env_untracked_only cfg0 false =
      if ((env_untracked_only.gitUntracked).filter (fun f => !f.isEmpty)).isEmpty then none
      else some ((env_untracked_only.gitUntracked).filter (fun f => !f.isEmpty)) :=
  c2_zero_tracked_manifest env_untracked_only cfg0 rfl rfl rfl rfl rfl rfl

/-- C3 counterexample: when the manifest temp file has been written and the
rsync push fails to launch, `sync_to_remote` exits with the launch error and
the temp file is never removed. -/
theorem c3_counterexample :
    (sync_to_remote env_push_launch_fail cfg0 false).2 = [Event.tempFileWritten] ∧
    Event.tempFileRemoved ∉ (sync_to_remote env_push_launch_fail cfg0 false).2 ∧
    (sync_to_remote env_push_launch_fail cfg0 false).1 = .error .rsyncLaunchFail := by
  refine ⟨rfl, by decide, rfl⟩

/-- C3 (amended): the manifest temp file is removed on every exit path of the
push stage on which the transfer process actually runs, whatever its exit
status; only when the transfer process cannot be launched at all is the temp
file left behind. -/
theorem c3_cleanup_when_transfer_runs (e : Env) (cfg : Config) (force : Bool)
    (c : Nat) (hp : e.pushResult = ProcResult.exited c)
    (hw : Event.tempFileWritten ∈ (sync_to_remote e cfg force).2) :
    Event.tempFileRemoved ∈ (sync_to_remote e cfg force).2 := by
  have key : ∀ b : Bool, Event.tempFileWritten ∈ (push_transfer e b).2 →
      Event.tempFileRemoved ∈ (push_transfer e b).2 := by
    intro b hb
    unfold push_transfer at hb ⊢
    rw [hp] at hb ⊢
    cases b <;> by_cases hc : c = 0 <;> simp_all
  unfold sync_to_remote at hw ⊢
  revert hw
  rcases h1 : ensure_ssh_connection e with er | u
  · intro hw
    simp at hw
  · rcases h2 : run_ssh_command e.mkdirResult with er2 | u2
    · intro hw
      simp at hw
    · rcases h3 : manifest_files e cfg force with _ | fs
      · intro hw
        exact key false hw
      · by_cases htw : e.tempWriteOk
        · simp only [htw, eq_self_iff_true, if_true]
          intro hw
          exact key true hw
        · simp only [htw]
          simp

/-- Witness for the amended C3: a push that runs and exits 23 still removes the
written temp file. -/
theorem c3_cleanup_when_transfer_runs_witness :
    Event.tempFileWritten ∈ (sync_to_remote env_push_exit_fail cfg0 false).2 ∧
    Event.tempFileRemoved ∈ (sync_to_remote env_push_exit_fail cfg0 false).2 :=
  ⟨by decide, c3_cleanup_when_transfer_runs env_push_exit_fail cfg0 false 23 rfl (by decide)⟩

/-- C4: a non-zero remote build exit makes the pipeline fail with an error
carrying the exit code, and no artifact pull is attempted. -/
theorem c4_build_failure_fatal (e : Env) (cfg : Config) (force : Bool) (c : Nat)
    (hc : c ≠ 0) (hb : e.buildResult = ProcResult.exited c)
    (hs : (sync_to_remote e cfg force).1 = .ok ()) :
    (run_remote_build e cfg force).1 = .error (.buildFail c) ∧
    no_pull_events (run_remote_build e cfg force).2 = true := by
  rcases hsp : sync_to_remote e cfg force with ⟨r, ev⟩
  rw [hsp] at hs
  have hr : r = Except.ok () := hs
  subst hr
  have hbc : run_remote_build_command e = .error (.buildFail c) := by
    unfold run_remote_build_command
    rw [hb]
    simp [hc]
  unfold run_remote_build
  rw [hsp, hbc]
  refine ⟨rfl, ?_⟩
  apply no_pull_events_of_temp
  intro x hx
  have := sync_to_remote_events e cfg force x
  rw [hsp] at this
  exact this hx

/-- Witness for C4: remote build exits 2 on an otherwise healthy run. -/
theorem c4_build_failure_fatal_witness :
    (run_remote_build env_build_fail cfg0 false).1 = .error (.buildFail 2) ∧
    no_pull_events (run_remote_build env_build_fail cfg0 false).2 = true :=
  c4_build_failure_fatal env_build_fail cfg0 false 2 (by decide) rfl rfl

/-- C5: when every artifact pull launches, the pull stage returns `Ok` whatever
the exit statuses, every artifact is attempted, every failed pull is recorded
as a warning, and the whole pipeline succeeds when connect, push and build
succeeded. -/
theorem c5_pull_failures_nonfatal (e : Env) (cfg : Config) (force : Bool)
    (hpull : ∀ j, j < cfg.artifacts.length → e.pullResult j ≠ ProcResult.launchFail)
    (hs : (sync_to_remote e cfg force).1 = .ok ())
    (hb : run_remote_build_command e = .ok ()) :
    (sync_artifacts e cfg).1 = .ok () ∧
    (run_remote_build e cfg force).1 = .ok () ∧
    attempts_present 0 cfg.artifacts (sync_artifacts e cfg).2 = true ∧
    warnings_present e.pullResult 0 cfg.artifacts (sync_artifacts e cfg).2 = true := by
  have hz : ∀ j, j < cfg.artifacts.length → e.pullResult (0 + j) ≠ ProcResult.launchFail := by
    intro j hj
    simpa using hpull j hj
  obtain ⟨h1, h2, h3⟩ := sync_artifacts_from_all_run e.pullResult cfg.artifacts 0 hz
  refine ⟨h1, ?_, h2, h3⟩
  rcases hsp : sync_to_remote e cfg force with ⟨r, ev⟩
  rw [hsp] at hs
  have hr : r = Except.ok () := hs
  subst hr
  unfold run_remote_build
  rw [hsp, hb]
  simpa [sync_artifacts] using h1

/-- Witness for C5: first pull succeeds, second runs but exits 23; the pipeline
still succeeds and both pulls are attempted. -/
theorem c5_pull_failures_nonfatal_witness :
    (sync_artifacts env_pull_mixed cfg_two).1 = .ok () ∧
    (run_remote_build env_pull_mixed cfg_two false).1 = .ok () ∧
    attempts_present 0 cfg_two.artifacts (sync_artifacts env_pull_mixed cfg_two).2 = true ∧
    warnings_present env_pull_mixed.pullResult 0 cfg_two.artifacts
      (sync_artifacts env_pull_mixed cfg_two).2 = true :=
  c5_pull_failures_nonfatal env_pull_mixed cfg_two false (by decide) rfl rfl

/-- C6: the control-artifact filename token keeps every alphanumeric character
and `-` and `.`, replaces every other character with `_`, and the artifact
lives under the per-user cache directory. -/
theorem c6_sanitized_control_path (isAlnum : Char → Bool) (cacheDir host : String) :
    (sanitize_host isAlnum host).data
      = host.data.map (fun c => if isAlnum c || c == '-' || c == '.' then c else '_') ∧
    ssh_control_path isAlnum cacheDir host
      = cacheDir ++ "/remotebuild/" ++ ("control_" ++ sanitize_host isAlnum host) := by
  refine ⟨?_, rfl⟩
  show host.data.map _ = host.data.map _
  apply List.map_congr_left
  intro c _
  by_cases h1 : isAlnum c <;> by_cases h2 : c = '-' <;> by_cases h3 : c = '.' <;>
    simp [h1, h2, h3]

/-- C7: an unrecognized output-tier string selects Minimal, and a CLI-provided
output value replaces the configuration file's value. -/
theorem c7_output_tier (o : String) (c : Config)
    (h1 : rust_to_lowercase o ≠ "verbose") (h2 : rust_to_lowercase o ≠ "v")
    (h3 : rust_to_lowercase o ≠ "normal") (h4 : rust_to_lowercase o ≠ "n") :
    (apply_cli_output (some o) c).output_level = OutputLevel.Minimal ∧
    (apply_cli_output (some o) c).output = o := by
  refine ⟨?_, rfl⟩
  show Config.output_level { c with output := o } = _
  unfold Config.output_level
  split <;> simp_all

/-- Witness for C7 at the empty string (which is unrecognized) over a concrete
configuration whose file-level value says "verbose". -/
theorem c7_output_tier_witness :
    (apply_cli_output (some "") { cfg0 with output := "verbose" }).output_level
      = OutputLevel.Minimal ∧
    (apply_cli_output (some "") { cfg0 with output := "verbose" }).output = "" :=
  c7_output_tier "" _ (by decide) (by decide) (by decide) (by decide)

/-- C8: if the background master spawn is initiated successfully,
`ensure_ssh_connection` returns success after its fixed grace period no matter
whether the session ever becomes ready. -/
theorem c8_warmup_never_fails (e : Env) (h : e.spawnOk = true) :
    ensure_ssh_connection e = .ok () := by
  unfold ensure_ssh_connection
  split
  · rfl
  · simp [h]

/-- Witness for C8: no prior socket, probe unusable, and the session never
becomes ready — the function still reports success. -/
theorem c8_warmup_never_fails_witness : ensure_ssh_connection env_warmup = .ok () :=
  c8_warmup_never_fails env_warmup rfl

/-- C9: a pull whose transfer cannot be launched makes `sync_artifacts` return
an error immediately — remaining artifacts are skipped — and the pipeline as a
whole fails even though connect, push and build succeeded. -/
theorem c9_pull_launch_failure_fatal (e : Env) (cfg : Config) (force : Bool) (j : Nat)
    (hj : j < cfg.artifacts.length)
    (hfail : e.pullResult j = ProcResult.launchFail)
    (hpre : ∀ k, k < j → e.pullResult k ≠ ProcResult.launchFail)
    (hs : (sync_to_remote e cfg force).1 = .ok ())
    (hb : run_remote_build_command e = .ok ()) :
    (sync_artifacts e cfg).1 = .error .artifactRsyncLaunchFail ∧
    attempts_bounded j (sync_artifacts e cfg).2 = true ∧
    (run_remote_build e cfg force).1 = .error .artifactRsyncLaunchFail := by
  have hfail' : e.pullResult (0 + j) = ProcResult.launchFail := by simpa using hfail
  have hpre' : ∀ k, k < j → e.pullResult (0 + k) ≠ ProcResult.launchFail := by
    intro k hk
    simpa using hpre k hk
  obtain ⟨h1, h2⟩ :=
    sync_artifacts_from_launch_fail e.pullResult cfg.artifacts 0 j hj hfail' hpre'
  rw [Nat.zero_add] at h2
  refine ⟨h1, h2, ?_⟩
  rcases hsp : sync_to_remote e cfg force with ⟨r, ev⟩
  rw [hsp] at hs
  have hr : r = Except.ok () := hs
  subst hr
  unfold run_remote_build
  rw [hsp, hb]
  simpa [sync_artifacts] using h1

/-- Witness for C9: of three artifacts, the second pull fails to launch — the
stage errors out and no attempt beyond index 1 is recorded. -/
theorem c9_pull_launch_failure_fatal_witness :
    (sync_artifacts env_pull_launch_fail cfg_three).1 = .error .artifactRsyncLaunchFail ∧
    attempts_bounded 1 (sync_artifacts env_pull_launch_fail cfg_three).2 = true ∧
    (run_remote_build env_pull_launch_fail cfg_three false).1
      = .error .artifactRsyncLaunchFail :=
  c9_pull_launch_failure_fatal env_pull_launch_fail cfg_three false 1 (by decide) rfl
    (by decide) rfl rfl

/-- C10: the directory-creation command shell-escapes the remote path while
the build stage interpolates it unescaped, so for the path `~/cache` the
directory is created at the literal `~/cache` while the build changes into the
tilde-expanded home path — different locations whenever the home directory is
not literally `~`. -/
theorem c10_quoting_divergence (home bc host : String) (hhome : home ≠ "~") :
    mkdir_cmd "~/cache" = "mkdir -p '~/cache'" ∧
    build_cmd { host := host, remote_path := "~/cache", build_command := bc,
                artifacts := [], exclude_patterns := [], git_aware := true, output := "" }
      = "cd ~/cache && " ++ bc ∧
    shell_word_eval home (shell_escape "~/cache") = "~/cache" ∧
    shell_word_eval home "~/cache" = home ++ "/cache" ∧
    shell_word_eval home (shell_escape "~/cache") ≠ shell_word_eval home "~/cache" := by
  have h3 : shell_word_eval home (shell_escape "~/cache") = "~/cache" := rfl
  have h4 : shell_word_eval home "~/cache" = home ++ "/cache" := rfl
  refine ⟨rfl, rfl, h3, h4, ?_⟩
  rw [h3, h4]
  intro h
  apply hhome
  have hd : ("~/cache" : String).data = (home ++ "/cache").data := congrArg String.data h
  rw [String.data_append] at hd
  have hd2 : ['~'] ++ ("/cache" : String).data = home.data ++ ("/cache" : String).data := hd
  have hh : home.data = ['~'] := (List.append_cancel_right hd2).symm
  cases home with
  | mk d =>
      simp only at hh
      rw [hh]

/-- Witness for C10 at a concrete home directory and build command. -/
theorem c10_quoting_divergence_witness :
    mkdir_cmd "~/cache" = "mkdir -p '~/cache'" ∧
    build_cmd { host := "ci@build1", remote_path := "~/cache", build_command := "make -j4",
                artifacts := [], exclude_patterns := [], git_aware := true, output := "" }
      = "cd ~/cache && " ++ "make -j4" ∧
    shell_word_eval "/home/user" (shell_escape "~/cache") = "~/cache" ∧
    shell_word_eval "/home/user" "~/cache" = "/home/user" ++ "/cache" ∧
    shell_word_eval "/home/user" (shell_escape "~/cache")
      ≠ shell_word_eval "/home/user" "~/cache" :=
  c10_quoting_divergence "/home/user" "make -j4" "ci@build1" (by decide)

end RemoteBuild
